import Mathlib

/-!
Verification development for the tag-bot repository (src/main.rs, src/logging.rs).

The bot keeps a `ChannelMap : HashMap<ChannelId, Vec<TaggedMessage>>`.  We model
the registry one channel at a time, as the `List TaggedMessage` stored for that
channel; the Rust code's `get_or_create` pattern (materialising an empty `Vec`
on first access, main.rs lines 72-78 and 108-114) is the identity at this level
of abstraction, since a channel absent from the map and a channel mapped to an
empty vector hold the same pending entries.

Discord identifiers (ChannelId, MessageId, UserId, role ids) are modelled as
`Nat`.  The `message_counter` / `counter` fields are `u16` in the source; the
code decrements a counter only under a `counter == 0` check, so the value never
wraps and `Nat` with truncated subtraction is an exact model.

Transport calls (HTTP sends, reacts, fetches, deletes) are fallible.  Each
handler is modelled as a pure function taking the outcome of every transport
call it can make as an explicit argument:
  * fetches are `Option` values (`none` = `Err` from the transport);
  * the permission check is `Option Bool` (`none` = `Err`);
  * the per-rule react / citation-send calls inside `tag_message` are oracles
    `Nat → Bool` indexed by the position of the rule in the tag table, `true`
    meaning the call succeeds.
`unwrap_gracefully` (logging.rs lines 16-26 and 48-58) logs and then panics on
`Err`; a reachable panic is recorded as a `panicked` flag in the result.
-/

/-- `Tag` from main.rs lines 22-27: one rule of the tag rule table. -/
structure Tag where
  channel_target : Nat
  emoji_name : String
  message_counter : Nat
deriving DecidableEq, Repr

/-- `TaggedMessage` from main.rs lines 42-45: one pending entry of the
countdown registry. -/
structure TaggedMessage where
  message_id : Nat
  counter : Nat
deriving DecidableEq, Repr

/-- The fields of a serenity `Message` that `tag_message` reads. -/
structure Message where
  id : Nat
  channel_id : Nat
  author : Nat
  content : String
  attachments : List String
deriving DecidableEq, Repr

/-- The shape of `reaction.emoji` that `Handler::reaction_add` matches on
(main.rs lines 96-101): a custom emoji carries an optional name. -/
inductive ReactionKind where
  | custom (name : Option String)
  | unicode
deriving DecidableEq, Repr

/-- The countdown loop of `Handler::message`, main.rs lines 80-92: each entry
is visited once; an entry with `counter == 0` is kept as it is and its
message id is sent to `delete_message` (the result of the delete is only
logged); any other entry has its counter decremented.  The second component
is the list of message ids for which a delete request is issued, in entry
order. -/
def tick : List TaggedMessage → List TaggedMessage × List Nat
  | [] => ([], [])
  | e :: rest =>
    let r := tick rest
    if e.counter = 0 then
      (e :: r.1, e.message_id :: r.2)
    else
      (⟨e.message_id, e.counter - 1⟩ :: r.1, r.2)

/-- Result of `Handler::message` on one channel: whether the static help reply
was sent, the channel's entries after the tick, and the delete requests
issued. -/
structure MessageOutcome where
  helpSent : Bool
  entries : List TaggedMessage
  deletions : List Nat
deriving DecidableEq, Repr

/-- `Handler::message`, main.rs lines 61-93: an exact-content help check
followed by the countdown tick over the channel's entries. -/
def messageHandler (content : String) (entries : List TaggedMessage) :
    MessageOutcome :=
  let r := tick entries
  ⟨content == "!tag help", r.1, r.2⟩

/-- Result of `tag_message`: `ok` is whether the function returned `Ok(())`
(`false` = an `Err` propagated by `?`), `registry` the channel's entries after
the call, `citations` the target channels of the citation sends that
succeeded, in order. -/
structure TagResult where
  ok : Bool
  registry : List TaggedMessage
  citations : List Nat
deriving DecidableEq, Repr

/-- The loop body of `tag_message`, main.rs lines 153-190, with `i` the
position of the current rule in the full tag table.  For every rule whose
`emoji_name` equals the reaction's name the code reacts with a checkmark
(`?` on failure), sends the citation to `tag.channel_target` (`?` on
failure), and then pushes a new `TaggedMessage` onto the channel's entries.
There is no `break`: the loop continues through the remaining rules.  An
`Err` returns at once, keeping the pushes already made. -/
def tagMessageGo (reactOk sayOk : Nat → Bool) (msg : Message) (name : String) :
    Nat → List Tag → List TaggedMessage → TagResult
  | _, [], reg => ⟨true, reg, []⟩
  | i, t :: rest, reg =>
    if name == t.emoji_name then
      if reactOk i then
        if sayOk i then
          let r := tagMessageGo reactOk sayOk msg name (i + 1) rest
            (reg ++ [⟨msg.id, t.message_counter⟩])
          ⟨r.ok, r.registry, t.channel_target :: r.citations⟩
        else ⟨false, reg, []⟩
      else ⟨false, reg, []⟩
    else tagMessageGo reactOk sayOk msg name (i + 1) rest reg

/-- `tag_message`, main.rs lines 145-193. -/
def tag_message (reactOk sayOk : Nat → Bool) (msg : Message) (name : String)
    (tags : List Tag) (reg : List TaggedMessage) : TagResult :=
  tagMessageGo reactOk sayOk msg name 0 tags reg

/-- Result of `Handler::reaction_add` on one event: whether the handler
panicked (via `unwrap_gracefully` or a bare `unwrap`), the reacting channel's
entries afterwards, and the citation sends that succeeded. -/
structure ReactionResult where
  panicked : Bool
  registry : List TaggedMessage
  citations : List Nat
deriving DecidableEq, Repr

/-- `Handler::reaction_add`, main.rs lines 95-137, in the source's evaluation
order: match on the emoji kind (unicode reactions do nothing); fetch the
reacted-to message (`unwrap_gracefully`: `Err` panics); fetch the reacting
user (`Err` panics); `reaction.guild_id.unwrap()` (a missing guild panics);
`has_role` — `Err` is logged and the event dropped, `Ok(false)` only logged,
`Ok(true)` runs `name.as_ref().unwrap()` (a nameless custom emoji panics) and
then `tag_message(...).unwrap_gracefully()` (an `Err` from `tag_message`
panics). -/
def reaction_add (tags : List Tag) (emoji : ReactionKind)
    (guild_id : Option Nat) (fetchedMessage : Option Message)
    (fetchedUser : Option Nat) (hasRole : Option Bool)
    (reactOk sayOk : Nat → Bool) (reg : List TaggedMessage) : ReactionResult :=
  match emoji with
  | .unicode => ⟨false, reg, []⟩
  | .custom nm =>
    match fetchedMessage with
    | none => ⟨true, reg, []⟩
    | some msg =>
      match fetchedUser with
      | none => ⟨true, reg, []⟩
      | some _ =>
        match guild_id with
        | none => ⟨true, reg, []⟩
        | some _ =>
          match hasRole with
          | none => ⟨false, reg, []⟩
          | some false => ⟨false, reg, []⟩
          | some true =>
            match nm with
            | none => ⟨true, reg, []⟩
            | some n =>
              let r := tag_message reactOk sayOk msg n tags reg
              ⟨!r.ok, r.registry, r.citations⟩

/-- A transport oracle under which every call succeeds. -/
def allOk : Nat → Bool := fun _ => true

/-- Sample rule and message for concrete evaluations. -/
def rule0 : Tag := ⟨99, "tagme", 2⟩

def msg0 : Message := ⟨5, 1, 7, "hi", []⟩

/-- Two rules sharing one emoji name, for the duplicated-rule scenarios. -/
def ruleA : Tag := ⟨10, "e", 3⟩

def ruleB : Tag := ⟨20, "e", 4⟩

/-- A transport oracle whose calls succeed only for the rule at position 0:
the citation send for a second matching rule fails. -/
def failFromSecond : Nat → Bool := fun i => i == 0

-- Structural lemmas about the countdown tick.

/-- The tick processes a concatenation componentwise. -/
theorem tick_append (xs ys : List TaggedMessage) :
    tick (xs ++ ys) =
      ((tick xs).1 ++ (tick ys).1, (tick xs).2 ++ (tick ys).2) := by
  induction xs with
  | nil => simp [tick]
  | cons e rest ih =>
    by_cases h : e.counter = 0 <;> simp [tick, ih, h]

/-- An entry whose counter is zero survives the tick unchanged and its
message id is issued for deletion. -/
theorem tick_zero_mem {e : TaggedMessage} {reg : List TaggedMessage}
    (hm : e ∈ reg) (h0 : e.counter = 0) :
    e ∈ (tick reg).1 ∧ e.message_id ∈ (tick reg).2 := by
  induction reg with
  | nil => cases hm
  | cons a rest ih =>
    rcases List.mem_cons.mp hm with h | h
    · subst h
      simp [tick, h0]
    · rcases ih h with ⟨h1, h2⟩
      by_cases ha : a.counter = 0 <;> simp [tick, ha, h1, h2]

-- Structural lemmas about the tagging loop.

/-- Each push onto the registry is paired with one successful citation send:
the loop appends one entry per successful citation, every appended entry
carries the tagged message's id, and on return the result's registry is the
input registry followed by exactly those entries. -/
theorem tagMessageGo_registry (reactOk sayOk : Nat → Bool) (msg : Message)
    (name : String) (tags : List Tag) :
    ∀ (i : Nat) (reg : List TaggedMessage),
      ∃ new,
        (tagMessageGo reactOk sayOk msg name i tags reg).registry =
          reg ++ new ∧
        new.length =
          (tagMessageGo reactOk sayOk msg name i tags reg).citations.length ∧
        ∀ e ∈ new, e.message_id = msg.id := by
  induction tags with
  | nil =>
    intro i reg
    exact ⟨[], by simp [tagMessageGo]⟩
  | cons t rest ih =>
    intro i reg
    by_cases hn : (name == t.emoji_name) = true
    · by_cases hr : reactOk i = true
      · by_cases hs : sayOk i = true
        · rcases ih (i + 1) (reg ++ [⟨msg.id, t.message_counter⟩]) with
            ⟨new, h1, h2, h3⟩
          refine ⟨⟨msg.id, t.message_counter⟩ :: new, ?_, ?_, ?_⟩
          · simp [tagMessageGo, hn, hr, hs, h1]
          · simp [tagMessageGo, hn, hr, hs, h2]
          · intro e he
            rcases List.mem_cons.mp he with h | h
            · subst h; rfl
            · exact h3 e h
        · exact ⟨[], by simp [tagMessageGo, hn, hr, hs]⟩
      · exact ⟨[], by simp [tagMessageGo, hn, hr]⟩
    · rcases ih (i + 1) reg with ⟨new, h1, h2, h3⟩
      exact ⟨new, by simp [tagMessageGo, hn, h1], by simp [tagMessageGo, hn, h2], h3⟩

/-- When every transport call succeeds, the loop applies every matching rule
in table order: one citation and one appended entry per matching rule, and
the function returns `Ok`. -/
theorem tagMessageGo_allOk (msg : Message) (name : String) (tags : List Tag) :
    ∀ (i : Nat) (reg : List TaggedMessage),
      tagMessageGo allOk allOk msg name i tags reg =
        ⟨true,
         reg ++ (tags.filter fun t => name == t.emoji_name).map
           (fun t => ⟨msg.id, t.message_counter⟩),
         (tags.filter fun t => name == t.emoji_name).map
           (fun t => t.channel_target)⟩ := by
  induction tags with
  | nil => intro i reg; simp [tagMessageGo]
  | cons t rest ih =>
    intro i reg
    by_cases hn : (name == t.emoji_name) = true
    · simp [tagMessageGo, hn, allOk, ih (i + 1)]
    · simp [tagMessageGo, hn, allOk, ih (i + 1)]

/-- A reaction name matching no rule of the table leaves the registry
unchanged, sends nothing and returns `Ok`. -/
theorem tagMessageGo_no_match (reactOk sayOk : Nat → Bool) (msg : Message)
    (name : String) (tags : List Tag)
    (h : ∀ t ∈ tags, (name == t.emoji_name) = false) :
    ∀ (i : Nat) (reg : List TaggedMessage),
      tagMessageGo reactOk sayOk msg name i tags reg = ⟨true, reg, []⟩ := by
  induction tags with
  | nil => intro i reg; simp [tagMessageGo]
  | cons t rest ih =>
    intro i reg
    have ht := h t (List.mem_cons_self t rest)
    have hrest : ∀ u ∈ rest, (name == u.emoji_name) = false :=
      fun u hu => h u (List.mem_cons_of_mem t hu)
    simp [tagMessageGo, ht, ih hrest (i + 1)]

/-- C1: evaluation of the countdown loop at an entry whose counter is zero.
The tick issues the delete request but keeps the entry in the channel's
sequence, and a second tick issues the same delete request again: the code
never removes an evicted entry, contradicting the claimed removal. -/
theorem c1_zero_entry_never_removed :
    tick [⟨1, 0⟩] = ([⟨1, 0⟩], [1]) ∧
    (tick (tick [⟨1, 0⟩]).1).1 = [⟨1, 0⟩] ∧
    (tick (tick [⟨1, 0⟩]).1).2 = [1] := by
  decide

/-- C6: an entry appended with an initial countdown of zero has its message
id issued for deletion on the very next tick of its channel, and every entry
whose counter is zero passes through the tick with its counter untouched
(the decrement branch is guarded by the zero check, so the u16 counter never
underflows) while its message id is issued for deletion. -/
theorem c6_zero_countdown_evicted_next_tick (reg : List TaggedMessage)
    (m : Nat) :
    m ∈ (tick (reg ++ [⟨m, 0⟩])).2 ∧
    ∀ e ∈ reg, e.counter = 0 →
      e ∈ (tick reg).1 ∧ e.message_id ∈ (tick reg).2 := by
  constructor
  · rw [tick_append]
    simp [tick]
  · intro e he h0
    exact tick_zero_mem he h0

/-- Witness for C6 at a concrete channel state. -/
theorem c6_witness :
    3 ∈ (tick ([⟨4, 1⟩] ++ [⟨3, 0⟩])).2 ∧
    ∀ e ∈ [(⟨4, 1⟩ : TaggedMessage)], e.counter = 0 →
      e ∈ (tick [⟨4, 1⟩]).1 ∧ e.message_id ∈ (tick [⟨4, 1⟩]).2 :=
  c6_zero_countdown_evicted_next_tick [⟨4, 1⟩] 3

/-- C9: a new message in a channel with no pending entries triggers a tick
that issues no deletion and leaves the channel's entry sequence empty — an
idempotent no-op on the registry. -/
theorem c9_tick_empty_channel_noop (content : String) :
    (messageHandler content []).entries = [] ∧
    (messageHandler content []).deletions = [] :=
  ⟨rfl, rfl⟩

/-- C10: a reaction event carrying a custom emoji whose `guild_id` is absent
reaches `reaction.guild_id.unwrap()` after the message and user fetches
succeed, and the handler panics rather than ignoring the event or returning
an error. -/
theorem c10_missing_guild_panics (tags : List Tag) (nm : Option String)
    (m : Message) (u : Nat) (hr : Option Bool) (reactOk sayOk : Nat → Bool)
    (reg : List TaggedMessage) :
    (reaction_add tags (.custom nm) none (some m) (some u) hr
      reactOk sayOk reg).panicked = true :=
  rfl

/-- C2 counterexample: from the empty registry, tagging message 5 twice with
the same rule (all transport calls succeeding) is a reachable sequence of
operations, and it leaves two identical pending entries for message 5 in the
same channel — the at-most-once invariant is false for the code. -/
theorem c2_duplicate_entry_counterexample :
    (tag_message allOk allOk msg0 "tagme" [rule0]
        (tag_message allOk allOk msg0 "tagme" [rule0] []).registry).registry =
      [⟨5, 2⟩, ⟨5, 2⟩] := by
  decide

/-- C2 amended: `tag_message` pushes unconditionally, so tagging a message
that already has a pending entry in the channel appends a second entry for
the same (channel, message) pair: after the second successful tag the
channel holds at least two entries with that message id. -/
theorem c2_second_tag_appends_duplicate (t : Tag) (msg : Message)
    (reg : List TaggedMessage) (c : Nat)
    (h : (⟨msg.id, c⟩ : TaggedMessage) ∈ reg) :
    2 ≤ (tag_message allOk allOk msg t.emoji_name [t] reg).registry.countP
      (fun e => e.message_id == msg.id) := by
  simp only [tag_message, tagMessageGo_allOk]
  simp [List.countP_append, List.countP_cons]
  exact ⟨⟨msg.id, c⟩, h, rfl⟩

/-- Witness for C2's amended claim at a concrete registry. -/
theorem c2_witness :
    2 ≤ (tag_message allOk allOk msg0 rule0.emoji_name [rule0]
        [⟨5, 0⟩]).registry.countP (fun e => e.message_id == msg0.id) :=
  c2_second_tag_appends_duplicate rule0 msg0 [⟨5, 0⟩] 0 (by decide)

/-- C4 counterexample: with two rules sharing the emoji name, the citation
send for the second matching rule fails, so `tag_message` returns `Err`, yet
the entry pushed by the first matching rule remains: the registry is not
left unchanged on a citation failure, and an entry for that very message was
inserted. -/
theorem c4_citation_failure_registry_changed :
    (tag_message allOk failFromSecond ⟨5, 1, 7, "hi", []⟩ "e"
      [ruleA, ruleB] []).ok = false ∧
    (tag_message allOk failFromSecond ⟨5, 1, 7, "hi", []⟩ "e"
      [ruleA, ruleB] []).registry = [⟨5, 3⟩] := by
  decide

/-- C4 amended: each insert is tied to its own citation send — the registry
after `tag_message` is the input registry followed by exactly one new entry
per successful citation send, every new entry carries the tagged message's
id, and when no citation succeeded (in particular when the only matching
rule's send failed) the registry is unchanged.  Entries pushed for earlier
matching rules persist when a later rule's send fails. -/
theorem c4_insert_only_after_citation (reactOk sayOk : Nat → Bool)
    (msg : Message) (name : String) (tags : List Tag)
    (reg : List TaggedMessage) :
    ∃ new,
      (tag_message reactOk sayOk msg name tags reg).registry = reg ++ new ∧
      new.length =
        (tag_message reactOk sayOk msg name tags reg).citations.length ∧
      (∀ e ∈ new, e.message_id = msg.id) ∧
      ((tag_message reactOk sayOk msg name tags reg).citations = [] →
        (tag_message reactOk sayOk msg name tags reg).registry = reg) := by
  rcases tagMessageGo_registry reactOk sayOk msg name tags 0 reg with
    ⟨new, h1, h2, h3⟩
  refine ⟨new, h1, h2, h3, fun hc => ?_⟩
  have hc' : (tagMessageGo reactOk sayOk msg name 0 tags reg).citations = [] :=
    hc
  rw [hc'] at h2
  simp only [List.length_nil] at h2
  have hnil : new = [] := List.length_eq_zero.mp h2
  show (tagMessageGo reactOk sayOk msg name 0 tags reg).registry = reg
  rw [h1, hnil, List.append_nil]

/-- Witness for C4's amended claim at a concrete failing send. -/
theorem c4_witness :
    ∃ new,
      (tag_message allOk (fun _ => false) msg0 "tagme" [rule0] []).registry =
        [] ++ new ∧
      new.length =
        (tag_message allOk (fun _ => false) msg0 "tagme" [rule0]
          []).citations.length ∧
      (∀ e ∈ new, e.message_id = msg0.id) ∧
      ((tag_message allOk (fun _ => false) msg0 "tagme" [rule0]
          []).citations = [] →
        (tag_message allOk (fun _ => false) msg0 "tagme" [rule0]
          []).registry = []) :=
  c4_insert_only_after_citation allOk (fun _ => false) msg0 "tagme" [rule0] []

/-- C5 counterexample: two rules share the emoji name and every transport
call succeeds; the loop has no `break`, so both rules are applied — two
citations are sent (to channels 10 and 20) and two entries are inserted,
not exactly one. -/
theorem c5_duplicate_rules_counterexample :
    (tag_message allOk allOk ⟨5, 1, 7, "hi", []⟩ "e"
      [ruleA, ruleB] []).citations = [10, 20] ∧
    (tag_message allOk allOk ⟨5, 1, 7, "hi", []⟩ "e"
      [ruleA, ruleB] []).registry = [⟨5, 3⟩, ⟨5, 4⟩] := by
  decide

/-- C5 amended: when every transport call succeeds, a permitted tag applies
every rule of the table whose emoji name matches, in table order: one
citation to its target channel and one inserted entry per matching rule,
never just the first match. -/
theorem c5_every_matching_rule_applies (msg : Message) (name : String)
    (tags : List Tag) (reg : List TaggedMessage) :
    tag_message allOk allOk msg name tags reg =
      ⟨true,
       reg ++ (tags.filter fun t => name == t.emoji_name).map
         (fun t => ⟨msg.id, t.message_counter⟩),
       (tags.filter fun t => name == t.emoji_name).map
         (fun t => t.channel_target)⟩ :=
  tagMessageGo_allOk msg name tags 0 reg

/-- C3 counterexample: a transport error while fetching the reacted-to
message of a custom-emoji reaction flows into `unwrap_gracefully`, which
logs and then panics — a panic is reachable from a transport failure, so the
event is not merely dropped. -/
theorem c3_fetch_error_panics :
    (reaction_add [rule0] (.custom (some "tagme")) (some 1) none (some 2)
      (some true) allOk allOk []).panicked = true := by
  decide

/-- C3 amended: error handling is split.  A failure of the permission check
is caught, logged, and the event is dropped with the registry untouched (as
are the delete and help-reply failures inside `Handler::message`, which are
matched and logged in place); but a transport failure fetching the
reacted-to message, fetching the reacting user, or inside `tag_message`
(the acknowledgment react or the citation send) is logged and then panics
through `unwrap_gracefully`. -/
theorem c3_error_handling_split (tags : List Tag) (nm : Option String)
    (gid : Option Nat) (fm : Message) (fu : Nat) (hr : Option Bool)
    (reactOk sayOk : Nat → Bool) (reg : List TaggedMessage) (t : Tag)
    (g : Nat) :
    (reaction_add tags (.custom nm) gid none (some fu) hr
      reactOk sayOk reg).panicked = true ∧
    (reaction_add tags (.custom nm) gid (some fm) none hr
      reactOk sayOk reg).panicked = true ∧
    reaction_add tags (.custom nm) (some g) (some fm) (some fu) none
      reactOk sayOk reg = ⟨false, reg, []⟩ ∧
    (reaction_add [t] (.custom (some t.emoji_name)) (some g) (some fm)
      (some fu) (some true) allOk (fun _ => false) reg).panicked = true := by
  refine ⟨rfl, rfl, rfl, ?_⟩
  simp [reaction_add, tag_message, tagMessageGo, allOk]

/-- C7: a unicode reaction, and a custom-emoji reaction whose name matches
no rule of the tag table, leave the channel's pending entries unchanged and
send no citation, whatever the transport and permission outcomes are. -/
theorem c7_unmatched_emoji_no_mutation (tags : List Tag) (nm : String)
    (h : ∀ t ∈ tags, nm ≠ t.emoji_name)
    (gid : Option Nat) (fm : Option Message) (fu : Option Nat)
    (hr : Option Bool) (reactOk sayOk : Nat → Bool)
    (reg : List TaggedMessage) :
    (reaction_add tags .unicode gid fm fu hr reactOk sayOk reg).registry =
      reg ∧
    (reaction_add tags .unicode gid fm fu hr reactOk sayOk reg).citations =
      [] ∧
    (reaction_add tags (.custom (some nm)) gid fm fu hr reactOk sayOk
      reg).registry = reg ∧
    (reaction_add tags (.custom (some nm)) gid fm fu hr reactOk sayOk
      reg).citations = [] := by
  refine ⟨rfl, rfl, ?_, ?_⟩ <;>
  · cases fm with
    | none => rfl
    | some m =>
      cases fu with
      | none => rfl
      | some u =>
        cases gid with
        | none => rfl
        | some g =>
          cases hr with
          | none => rfl
          | some b =>
            cases b with
            | false => rfl
            | true =>
              have hno : ∀ t ∈ tags, (nm == t.emoji_name) = false :=
                fun t ht => beq_eq_false_iff_ne.mpr (h t ht)
              simp [reaction_add, tag_message,
                tagMessageGo_no_match reactOk sayOk m nm tags hno 0 reg]

/-- Witness for C7 at a concrete rule table and emoji name. -/
theorem c7_witness :
    (reaction_add [rule0] .unicode (some 1) (some msg0) (some 2) (some true)
      allOk allOk [⟨5, 2⟩]).registry = [⟨5, 2⟩] ∧
    (reaction_add [rule0] .unicode (some 1) (some msg0) (some 2) (some true)
      allOk allOk [⟨5, 2⟩]).citations = [] ∧
    (reaction_add [rule0] (.custom (some "other")) (some 1) (some msg0)
      (some 2) (some true) allOk allOk [⟨5, 2⟩]).registry = [⟨5, 2⟩] ∧
    (reaction_add [rule0] (.custom (some "other")) (some 1) (some msg0)
      (some 2) (some true) allOk allOk [⟨5, 2⟩]).citations = [] :=
  c7_unmatched_emoji_no_mutation [rule0] "other" (by decide) (some 1)
    (some msg0) (some 2) (some true) allOk allOk [⟨5, 2⟩]

/-- C8: when the permission check returns `Ok(false)` (the user lacks the
tagging role) or `Err` (treated as deny and logged), the channel's pending
entries are unchanged and no citation is sent, whatever the emoji and the
other transport outcomes are. -/
theorem c8_denied_or_error_no_mutation (tags : List Tag)
    (emoji : ReactionKind) (gid : Option Nat) (fm : Option Message)
    (fu : Option Nat) (hr : Option Bool)
    (h : hr = some false ∨ hr = none) (reactOk sayOk : Nat → Bool)
    (reg : List TaggedMessage) :
    (reaction_add tags emoji gid fm fu hr reactOk sayOk reg).registry =
      reg ∧
    (reaction_add tags emoji gid fm fu hr reactOk sayOk reg).citations =
      [] := by
  cases emoji with
  | unicode => exact ⟨rfl, rfl⟩
  | custom nm =>
    cases fm with
    | none => exact ⟨rfl, rfl⟩
    | some m =>
      cases fu with
      | none => exact ⟨rfl, rfl⟩
      | some u =>
        cases gid with
        | none => exact ⟨rfl, rfl⟩
        | some g =>
          rcases h with h | h <;> subst h <;> exact ⟨rfl, rfl⟩

/-- Witness for C8 at a concrete denied event whose emoji matches a rule. -/
theorem c8_witness :
    (reaction_add [rule0] (.custom (some "tagme")) (some 1) (some msg0)
      (some 2) (some false) allOk allOk [⟨5, 2⟩]).registry = [⟨5, 2⟩] ∧
    (reaction_add [rule0] (.custom (some "tagme")) (some 1) (some msg0)
      (some 2) (some false) allOk allOk [⟨5, 2⟩]).citations = [] :=
  c8_denied_or_error_no_mutation [rule0] (.custom (some "tagme")) (some 1)
    (some msg0) (some 2) (some false) (Or.inl rfl) allOk allOk [⟨5, 2⟩]
